import Mathlib

/-!
Verification of the Duration subsystem of the bytebury/toolkit library
(src/duration.ts: the `Duration` class, its unit constructors and
conversion accessors, the `sleep` delay entry points, and the free
unit-to-milliseconds shorthand functions).

JavaScript numbers are modelled as exact rational values extended with
the special values `NaN`, `+Infinity` and `-Infinity` (idealized IEEE
semantics: special values propagate through arithmetic as in JavaScript,
finite arithmetic is exact). The source performs only multiplications
and divisions by fixed positive integer constants.
-/

namespace Toolkit

/-- A JavaScript number: either a finite value (modelled exactly as a
rational) or one of the special values NaN, +Infinity, -Infinity. -/
inductive JSNum where
  | nan : JSNum
  | posInf : JSNum
  | negInf : JSNum
  | fin : ℚ → JSNum
deriving DecidableEq, Repr

/-- JavaScript multiplication `x * y` on the extended number model:
NaN absorbs, infinities multiply by sign (infinity times zero is NaN),
finite values multiply exactly. -/
def JSNum.mul : JSNum → JSNum → JSNum
  | .nan, _ => .nan
  | _, .nan => .nan
  | .posInf, .posInf => .posInf
  | .posInf, .negInf => .negInf
  | .negInf, .posInf => .negInf
  | .negInf, .negInf => .posInf
  | .posInf, .fin q => if 0 < q then .posInf else if q < 0 then .negInf else .nan
  | .fin q, .posInf => if 0 < q then .posInf else if q < 0 then .negInf else .nan
  | .negInf, .fin q => if 0 < q then .negInf else if q < 0 then .posInf else .nan
  | .fin q, .negInf => if 0 < q then .negInf else if q < 0 then .posInf else .nan
  | .fin a, .fin b => .fin (a * b)

/-- JavaScript division `x / y` on the extended number model:
NaN absorbs, infinity over infinity is NaN, infinity over a finite value
keeps the (positive-zero) sign convention, a finite value over infinity
is zero, and division of a finite value by zero yields a signed infinity
(NaN for zero over zero). -/
def JSNum.div : JSNum → JSNum → JSNum
  | .nan, _ => .nan
  | _, .nan => .nan
  | .posInf, .posInf => .nan
  | .posInf, .negInf => .nan
  | .negInf, .posInf => .nan
  | .negInf, .negInf => .nan
  | .posInf, .fin q => if q < 0 then .negInf else .posInf
  | .negInf, .fin q => if q < 0 then .posInf else .negInf
  | .fin _, .posInf => .fin 0
  | .fin _, .negInf => .fin 0
  | .fin a, .fin b =>
      if b = 0 then (if 0 < a then .posInf else if a < 0 then .negInf else .nan)
      else .fin (a / b)

/-- JavaScript `<=` as a boolean: false whenever either side is NaN,
otherwise the order with -Infinity at the bottom and +Infinity at the top. -/
def JSNum.le : JSNum → JSNum → Bool
  | .nan, _ => false
  | _, .nan => false
  | .negInf, _ => true
  | _, .posInf => true
  | .posInf, _ => false
  | .fin _, .negInf => false
  | .fin a, .fin b => decide (a ≤ b)

/-- Whether a JavaScript number is finite (neither NaN nor an infinity),
as `Number.isFinite`. -/
def JSNum.isFinite : JSNum → Bool
  | .fin _ => true
  | _ => false

/-- The `Duration` class of duration.ts: an immutable value holding its
length in milliseconds (the private `milliseconds` field, here `msVal`). -/
structure Duration where
  msVal : JSNum
deriving DecidableEq, Repr

/-- `Duration.milliseconds`: `new Duration(milliseconds)`. -/
def Duration.milliseconds (milliseconds : JSNum) : Duration :=
  ⟨milliseconds⟩

/-- `Duration.seconds`: `new Duration(seconds * 1000)`. -/
def Duration.seconds (seconds : JSNum) : Duration :=
  ⟨seconds.mul (.fin 1000)⟩

/-- `Duration.minutes`: `new Duration(minutes * 60 * 1000)`. -/
def Duration.minutes (minutes : JSNum) : Duration :=
  ⟨(minutes.mul (.fin 60)).mul (.fin 1000)⟩

/-- `Duration.hours`: `new Duration(hours * 60 * 60 * 1000)`. -/
def Duration.hours (hours : JSNum) : Duration :=
  ⟨((hours.mul (.fin 60)).mul (.fin 60)).mul (.fin 1000)⟩

/-- `Duration.days`: `new Duration(days * 24 * 60 * 60 * 1000)`. -/
def Duration.days (days : JSNum) : Duration :=
  ⟨(((days.mul (.fin 24)).mul (.fin 60)).mul (.fin 60)).mul (.fin 1000)⟩

/-- `Duration.weeks`: `new Duration(weeks * 7 * 24 * 60 * 60 * 1000)`. -/
def Duration.weeks (weeks : JSNum) : Duration :=
  ⟨((((weeks.mul (.fin 7)).mul (.fin 24)).mul (.fin 60)).mul (.fin 60)).mul (.fin 1000)⟩

/-- `Duration.years`: `new Duration(years * 365 * 24 * 60 * 60 * 1000)`. -/
def Duration.years (years : JSNum) : Duration :=
  ⟨((((years.mul (.fin 365)).mul (.fin 24)).mul (.fin 60)).mul (.fin 60)).mul (.fin 1000)⟩

/-- `toMilliseconds()`: returns `this.milliseconds`. -/
def Duration.toMilliseconds (d : Duration) : JSNum :=
  d.msVal

/-- `toSeconds()`: returns `this.milliseconds / 1000`. -/
def Duration.toSeconds (d : Duration) : JSNum :=
  d.msVal.div (.fin 1000)

/-- `toMinutes()`: returns `this.milliseconds / (60 * 1000)`. -/
def Duration.toMinutes (d : Duration) : JSNum :=
  d.msVal.div (.fin (60 * 1000))

/-- `toHours()`: returns `this.milliseconds / (60 * 60 * 1000)`. -/
def Duration.toHours (d : Duration) : JSNum :=
  d.msVal.div (.fin (60 * 60 * 1000))

/-- `toDays()`: returns `this.milliseconds / (24 * 60 * 60 * 1000)`. -/
def Duration.toDays (d : Duration) : JSNum :=
  d.msVal.div (.fin (24 * 60 * 60 * 1000))

/-- `toWeeks()`: returns `this.milliseconds / (7 * 24 * 60 * 60 * 1000)`. -/
def Duration.toWeeks (d : Duration) : JSNum :=
  d.msVal.div (.fin (7 * 24 * 60 * 60 * 1000))

/-- `toYears()`: returns `this.milliseconds / (365 * 24 * 60 * 60 * 1000)`. -/
def Duration.toYears (d : Duration) : JSNum :=
  d.msVal.div (.fin (365 * 24 * 60 * 60 * 1000))

/-- The observable effect of one `sleep()` invocation: a single call to the
host timer primitive (`setTimeout(resolve, ms)`) with a millisecond count,
producing a no-value future that resolves when the timer fires. -/
structure DelayCall where
  delayMs : JSNum
deriving DecidableEq, Repr

/-- `Duration.prototype.sleep()`:
`new Promise((resolve) => setTimeout(resolve, this.toMilliseconds()))`,
modelled by its observable effect: one timer call with `toMilliseconds()`. -/
def Duration.sleep (d : Duration) : DelayCall :=
  ⟨d.toMilliseconds⟩

/-- The free `sleep(ms)`: `await Duration.milliseconds(ms).sleep()`. -/
def sleep (ms : JSNum) : DelayCall :=
  (Duration.milliseconds ms).sleep

/-- Free shorthand `milliseconds(v)`:
`Duration.milliseconds(v).toMilliseconds()`. -/
def milliseconds (v : JSNum) : JSNum :=
  (Duration.milliseconds v).toMilliseconds

/-- Free shorthand `seconds(v)`: `Duration.seconds(v).toMilliseconds()`. -/
def seconds (v : JSNum) : JSNum :=
  (Duration.seconds v).toMilliseconds

/-- Free shorthand `minutes(v)`: `Duration.minutes(v).toMilliseconds()`. -/
def minutes (v : JSNum) : JSNum :=
  (Duration.minutes v).toMilliseconds

/-- Free shorthand `hours(v)`: `Duration.hours(v).toMilliseconds()`. -/
def hours (v : JSNum) : JSNum :=
  (Duration.hours v).toMilliseconds

/-- Free shorthand `days(v)`: `Duration.days(v).toMilliseconds()`. -/
def days (v : JSNum) : JSNum :=
  (Duration.days v).toMilliseconds

/-- Free shorthand `weeks(v)`: `Duration.weeks(v).toMilliseconds()`. -/
def weeks (v : JSNum) : JSNum :=
  (Duration.weeks v).toMilliseconds

/-- Free shorthand `years(v)`: `Duration.years(v).toMilliseconds()`. -/
def years (v : JSNum) : JSNum :=
  (Duration.years v).toMilliseconds

/-- The seven supported time units. -/
inductive TimeUnit where
  | milliseconds
  | seconds
  | minutes
  | hours
  | days
  | weeks
  | years
deriving DecidableEq, Repr

/-- The conversion table of §3 of the spec: milliseconds per unit. -/
def conversionFactor : TimeUnit → ℚ
  | .milliseconds => 1
  | .seconds => 1000
  | .minutes => 60000
  | .hours => 3600000
  | .days => 86400000
  | .weeks => 604800000
  | .years => 31536000000

/-- The unit-indexed family of static constructors of `Duration`. -/
def fromUnit : TimeUnit → JSNum → Duration
  | .milliseconds => Duration.milliseconds
  | .seconds => Duration.seconds
  | .minutes => Duration.minutes
  | .hours => Duration.hours
  | .days => Duration.days
  | .weeks => Duration.weeks
  | .years => Duration.years

/-- The unit-indexed family of conversion accessors of `Duration`. -/
def toUnit : TimeUnit → Duration → JSNum
  | .milliseconds => Duration.toMilliseconds
  | .seconds => Duration.toSeconds
  | .minutes => Duration.toMinutes
  | .hours => Duration.toHours
  | .days => Duration.toDays
  | .weeks => Duration.toWeeks
  | .years => Duration.toYears

/-- The unit-indexed family of free unit-to-milliseconds shorthands. -/
def freeMs : TimeUnit → JSNum → JSNum
  | .milliseconds => milliseconds
  | .seconds => seconds
  | .minutes => minutes
  | .hours => hours
  | .days => days
  | .weeks => weeks
  | .years => years

lemma conversionFactor_pos (u : TimeUnit) : 0 < conversionFactor u := by
  cases u <;> norm_num [conversionFactor]

/-- Every constructor stores its input times the unit's conversion factor,
for all inputs including the special values. -/
lemma fromUnit_msVal (u : TimeUnit) (v : JSNum) :
    (fromUnit u v).msVal = v.mul (.fin (conversionFactor u)) := by
  cases u <;> cases v <;>
    norm_num [fromUnit, conversionFactor, Duration.milliseconds, Duration.seconds,
      Duration.minutes, Duration.hours, Duration.days, Duration.weeks, Duration.years,
      JSNum.mul] <;>
    ring

/-- Every accessor is a single division of the stored millisecond value by
the unit's conversion factor, for all stored values including specials. -/
lemma toUnit_eq_div (u : TimeUnit) (d : Duration) :
    toUnit u d = d.msVal.div (.fin (conversionFactor u)) := by
  cases u <;> cases hd : d.msVal <;>
    norm_num [toUnit, conversionFactor, Duration.toMilliseconds, Duration.toSeconds,
      Duration.toMinutes, Duration.toHours, Duration.toDays, Duration.toWeeks,
      Duration.toYears, JSNum.div, hd]

/-- Multiplication by a fixed positive finite constant is monotone with
respect to the JavaScript `<=` order (which is false on NaN). -/
lemma le_mul_fin_pos {a b : JSNum} {c : ℚ} (hc : 0 < c) (h : JSNum.le a b = true) :
    JSNum.le (a.mul (.fin c)) (b.mul (.fin c)) = true := by
  cases a <;> cases b <;>
    simp_all [JSNum.le, JSNum.mul, hc, not_lt_of_gt hc]

/-- Claim C1: for every supported unit U and every number v (special values
included), the unit constructor for U yields a Duration whose internal
millisecond value equals v multiplied by the conversion factor of U from
the table in §3: `fromU(v).toMilliseconds() == v * conversionFactor(U)`. -/
theorem unit_constructor_factor (u : TimeUnit) (v : JSNum) :
    (fromUnit u v).toMilliseconds = v.mul (.fin (conversionFactor u)) :=
  fromUnit_msVal u v

/-- Claim C2: for every supported unit U and every finite number v,
converting back after constructing is the identity: `toU(fromU(v)) == v`. -/
theorem roundtrip_identity (u : TimeUnit) (v : JSNum) (h : v.isFinite = true) :
    toUnit u (fromUnit u v) = v := by
  have hC := conversionFactor_pos u
  cases v with
  | nan => simp [JSNum.isFinite] at h
  | posInf => simp [JSNum.isFinite] at h
  | negInf => simp [JSNum.isFinite] at h
  | fin q =>
      rw [toUnit_eq_div, fromUnit_msVal]
      simp [JSNum.mul, JSNum.div, hC.ne']

/-- Witness for claim C2 at the concrete input 5 seconds. -/
theorem roundtrip_identity_witness :
    (JSNum.fin 5).isFinite = true ∧
      toUnit TimeUnit.seconds (fromUnit TimeUnit.seconds (JSNum.fin 5)) = JSNum.fin 5 :=
  ⟨rfl, roundtrip_identity TimeUnit.seconds (JSNum.fin 5) rfl⟩

/-- Claim C3: for every Duration and every supported unit U, the accessor
toU returns `internalValue / conversionFactor(U)` (a single division by the
fixed factor), `toMilliseconds` returns the internal value unchanged, and
every accessor is defined on every Duration whatever unit constructed it. -/
theorem accessor_single_division (u : TimeUnit) (d : Duration) :
    toUnit u d = d.msVal.div (.fin (conversionFactor u)) ∧
      d.toMilliseconds = d.msVal :=
  ⟨toUnit_eq_div u d, rfl⟩

/-- Claim C4: each free shorthand function equals
`fromU(v).toMilliseconds()` for every v; in particular `seconds(1) = 1000`,
`hours(1) = 3_600_000`, `years(1) = 31_536_000_000`. -/
theorem shorthand_equivalence :
    (∀ u v, freeMs u v = (fromUnit u v).toMilliseconds) ∧
      seconds (.fin 1) = .fin 1000 ∧
      hours (.fin 1) = .fin 3600000 ∧
      years (.fin 1) = .fin 31536000000 := by
  refine ⟨fun u v => ?_, ?_, ?_, ?_⟩
  · cases u <;> rfl
  · norm_num [seconds, Duration.seconds, Duration.toMilliseconds, JSNum.mul]
  · norm_num [hours, Duration.hours, Duration.toMilliseconds, JSNum.mul]
  · norm_num [years, Duration.years, Duration.toMilliseconds, JSNum.mul]

/-- Claim C5: the free `sleep(ms)` is observably equivalent to constructing
a Duration from ms milliseconds and invoking its instance sleep operation:
both produce the same single timer call with the same millisecond count. -/
theorem sleep_equivalence (ms : JSNum) :
    sleep ms = (Duration.milliseconds ms).sleep ∧
      (sleep ms).delayMs = ms ∧
      ((Duration.milliseconds ms).sleep).delayMs = ms :=
  ⟨rfl, rfl, rfl⟩

/-- Claim C6: every constructor and every accessor is total: on every
input, NaN and the infinities included, construction and conversion return
a value, the special values propagate arithmetically through the
multiply/divide with no guard, and finite inputs stay finite. -/
theorem totality_propagation (u u' : TimeUnit) :
    toUnit u' (fromUnit u .nan) = .nan ∧
      toUnit u' (fromUnit u .posInf) = .posInf ∧
      toUnit u' (fromUnit u .negInf) = .negInf ∧
      ∀ q : ℚ, (toUnit u' (fromUnit u (.fin q))).isFinite = true := by
  have hu := conversionFactor_pos u
  have hu' := conversionFactor_pos u'
  refine ⟨?_, ?_, ?_, fun q => ?_⟩ <;>
    rw [toUnit_eq_div, fromUnit_msVal] <;>
    simp [JSNum.mul, JSNum.div, JSNum.isFinite, hu, hu', hu'.ne',
      not_lt_of_gt hu, not_lt_of_gt hu']

/-- Claim C8: cross-unit consistency of concrete conversions:
`fromSeconds(60).toMinutes() == 1`, `fromDays(7).toWeeks() == 1`,
`fromDays(365).toYears() == 1`, each exactly. -/
theorem cross_unit_consistency :
    (Duration.seconds (.fin 60)).toMinutes = .fin 1 ∧
      (Duration.days (.fin 7)).toWeeks = .fin 1 ∧
      (Duration.days (.fin 365)).toYears = .fin 1 := by
  refine ⟨?_, ?_, ?_⟩ <;>
    norm_num [Duration.seconds, Duration.days, Duration.toMinutes, Duration.toWeeks,
      Duration.toYears, JSNum.mul, JSNum.div]

/-- Claim C9: constructing a Duration from x milliseconds and reading it
back returns x unchanged for every x, NaN and the infinities included
(the same value is propagated). -/
theorem milliseconds_identity (x : JSNum) :
    (Duration.milliseconds x).toMilliseconds = x :=
  rfl

/-- Claim C10: every unit constructor is monotone: whenever `v <= w` holds
under JavaScript comparison (false on NaN), the stored millisecond values
satisfy `fromU(v).toMilliseconds() <= fromU(w).toMilliseconds()`. -/
theorem constructor_monotone (u : TimeUnit) (v w : JSNum)
    (h : JSNum.le v w = true) :
    JSNum.le (fromUnit u v).toMilliseconds (fromUnit u w).toMilliseconds = true := by
  show JSNum.le (fromUnit u v).msVal (fromUnit u w).msVal = true
  rw [fromUnit_msVal, fromUnit_msVal]
  exact le_mul_fin_pos (conversionFactor_pos u) h

/-- Witness for claim C10 on the seconds constructor at 1 <= 2. -/
theorem constructor_monotone_witness :
    JSNum.le (JSNum.fin 1) (JSNum.fin 2) = true ∧
      JSNum.le (fromUnit TimeUnit.seconds (JSNum.fin 1)).toMilliseconds
        (fromUnit TimeUnit.seconds (JSNum.fin 2)).toMilliseconds = true :=
  ⟨by norm_num [JSNum.le],
    constructor_monotone TimeUnit.seconds (JSNum.fin 1) (JSNum.fin 2)
      (by norm_num [JSNum.le])⟩

end Toolkit
